import Mathlib

/-!
Shallow embedding of the go-tcmu device lifecycle code (device.go).

Filesystem effects are modelled by an oracle structure `FS` describing how
every stat / read / write / remove / glob call would answer, and each
embedded function returns the list of mutating actions it performed
together with an `Except` result.  Real time (the 30-second removal
timeout, the 1-second glob polling interval) is abstracted into oracle
outcomes: `RemoveOutcome.timeoutR` means the removal did not complete
within the 30-second window of the select in `remove`, and the glob oracle
is indexed by the attempt number of the 30-iteration polling loop.
-/

namespace GoTcmu

/-! ### String helpers mirroring Go library functions -/

/-- Chars of the first list are a leading segment of the second
(Go strings.HasPrefix on char lists). -/
def listPref : List Char → List Char → Bool
  | [], _ => true
  | _ :: _, [] => false
  | a :: as1, b :: bs => a = b && listPref as1 bs

/-- Go strings.HasPrefix. -/
def hasPref (s pre : String) : Bool := listPref pre.toList s.toList

/-- Split a char list on a separator char; always returns a nonempty list
of groups (Go strings.Split semantics on a nonempty separator). -/
def splitChar (sep : Char) : List Char → List (List Char)
  | [] => [[]]
  | c :: rest =>
    let r := splitChar sep rest
    if c = sep then [] :: r
    else
      match r with
      | [] => [[c]]
      | g :: gs => (c :: g) :: gs

/-- Interleave a separator char between groups (inverse of splitChar). -/
def joinSep (sep : Char) : List (List Char) → List Char
  | [] => []
  | [g] => g
  | g :: gs => g ++ sep :: joinSep sep gs

/-- Go strings.Split(s, sep) for a one-char separator. -/
def goSplit (sep : Char) (s : String) : List String :=
  (splitChar sep s.toList).map String.mk

/-- Go strings.SplitN(s, sep, 4) for a one-char separator: at most four
fields, the last field keeps any further separators. -/
def goSplitN4 (sep : Char) (s : String) : List String :=
  let parts := splitChar sep s.toList
  if parts.length ≤ 4 then parts.map String.mk
  else (parts.take 3).map String.mk ++ [String.mk (joinSep sep (parts.drop 3))]

/-- Go strings.TrimRight(s, "\n"). -/
def trimRightNl (s : String) : String :=
  String.mk (s.toList.reverse.dropWhile (fun c => c = Char.ofNat 10)).reverse

/-- ASCII whitespace as trimmed by Go strings.TrimSpace on ASCII input. -/
def isSpaceGo (c : Char) : Bool :=
  c = ' ' || c = Char.ofNat 9 || c = Char.ofNat 10 || c = Char.ofNat 11 ||
  c = Char.ofNat 12 || c = Char.ofNat 13

/-- Go strings.TrimSpace (ASCII fragment). -/
def trimSpace (s : String) : String :=
  String.mk (((s.toList.dropWhile isSpaceGo).reverse.dropWhile isSpaceGo).reverse)

/-- Go path.Dir for already-clean paths: everything before the last slash,
"." when there is no slash, "/" when the last slash is leading. -/
def pdir (s : String) : String :=
  match s.toList.reverse.dropWhile (fun c => c ≠ '/') with
  | [] => "."
  | _ :: rest =>
    match rest with
    | [] => "/"
    | _ :: _ => String.mk rest.reverse

/-- Go path.Join on two components, for already-clean components
(the Clean pass of path.Join is the identity on them). -/
def pjoin (a b : String) : String :=
  if a = "" then b else if b = "" then a else a ++ "/" ++ b

/-- Value of an ASCII digit char in a given base. -/
def digitVal (base : Nat) (c : Char) : Option Nat :=
  let v :=
    if '0' ≤ c ∧ c ≤ '9' then some (c.toNat - '0'.toNat)
    else if 'a' ≤ c ∧ c ≤ 'f' then some (c.toNat - 'a'.toNat + 10)
    else if 'A' ≤ c ∧ c ≤ 'F' then some (c.toNat - 'A'.toNat + 10)
    else none
  match v with
  | some d => if d < base then some d else none
  | none => none

/-- Parse a nonempty digit string in a given base. -/
def parseDigits (base : Nat) : List Char → Option Nat
  | [] => none
  | cs => go cs 0
where
  go : List Char → Nat → Option Nat
  | [], acc => some acc
  | c :: rest, acc =>
    match digitVal base c with
    | some d => go rest (base * acc + d)
    | none => none

/-- Go strconv.ParseUint(s, 0, 64): base chosen by the 0x / 0o / 0b / 0
leading form, result must fit in 64 bits. -/
def parseGoUint (s : String) : Option Nat :=
  let cs := s.toList
  let core :=
    match cs with
    | '0' :: [] => some 0
    | '0' :: 'x' :: rest => parseDigits 16 rest
    | '0' :: 'X' :: rest => parseDigits 16 rest
    | '0' :: 'o' :: rest => parseDigits 8 rest
    | '0' :: 'O' :: rest => parseDigits 8 rest
    | '0' :: 'b' :: rest => parseDigits 2 rest
    | '0' :: 'B' :: rest => parseDigits 2 rest
    | '0' :: rest => parseDigits 8 rest
    | _ => parseDigits 10 cs
  match core with
  | some v => if v < 2 ^ 64 then some v else none
  | none => none

/-- Go strconv.Atoi on a 64-bit platform: optional sign, decimal digits,
must fit in int64. -/
def goAtoi (s : String) : Option Int :=
  let signed : List Char → Option Int
    | '+' :: rest => (parseDigits 10 rest).map Int.ofNat
    | '-' :: rest => (parseDigits 10 rest).map (fun n => -(Int.ofNat n))
    | cs => (parseDigits 10 cs).map Int.ofNat
  match signed s.toList with
  | some v => if -(2 ^ 63) ≤ v ∧ v < 2 ^ 63 then some v else none
  | none => none

/-- Two's-complement wrap of an integer to int64, as Go arithmetic does. -/
def wrap64 (x : Int) : Int := (x + 2 ^ 63) % 2 ^ 64 - 2 ^ 63

/-! ### Data model (device.go types, plus the SCSIHandler fields it reads) -/

/-- DataSizes geometry consumed by device.go (fields read as int64). -/
structure DataSizes where
  VolumeSize : Int
  BlockSize : Int
  BlockXferMax : Int
deriving DecidableEq

/-- The SCSIHandler fields device.go reads; the WWN interface is inlined
as its two strings. -/
structure SCSIHandler where
  VolumeName : String
  HBA : Nat
  LUN : Nat
  sizes : DataSizes
  DeviceID : String
  NexusID : String
deriving DecidableEq

/-- Result of os.Stat / os.Lstat: success (with IsDir of the FileInfo),
a not-exist error, or another error. -/
inductive StatRes
  | found (isDir : Bool)
  | notExist
  | errS (msg : String)
deriving DecidableEq

/-- A stat that returned a FileInfo (err == nil). -/
def StatRes.isFound : StatRes → Bool
  | .found _ => true
  | _ => false

/-- Result of os.MkdirAll: ok, an IsExist error, or another error. -/
inductive MkdirRes
  | okM
  | isExist
  | errM (msg : String)
deriving DecidableEq

/-- How one os.Remove call inside `remove` plays out: success, a
NotExist error, another error, or not finishing within the 30-second
select timeout. -/
inductive RemoveOutcome
  | okR
  | notFound
  | failR (msg : String)
  | timeoutR
deriving DecidableEq

/-- Outcomes `remove` treats as success (err nil, or IsNotExist). -/
def RemoveOutcome.isGood : RemoveOutcome → Bool
  | .okR => true
  | .notFound => true
  | _ => false

/-- One filepath.Glob call: the matches and the error. -/
structure GlobRes where
  found : List String
  err : Option String
deriving DecidableEq

/-- One entry visited by filepath.Walk over the device filesystem, in
walk order.  `isRoot` marks the devfs root itself (walked first; the
`path != devfs` guard only skips non-root directories). -/
structure DevEntry where
  name : String
  isDir : Bool
  isRoot : Bool
deriving DecidableEq

/-- Oracle answering every filesystem call the code can make.  Reads are
pure queries; mutating calls consult the corresponding error oracle. -/
structure FS where
  lstat : String → StatRes
  stat : String → StatRes
  readFile : String → Except String String
  writeErr : String → String → Option String
  mkdir : String → MkdirRes
  symlinkErr : String → String → Option String
  removeRes : String → RemoveOutcome
  devEntries : List DevEntry
  openErr : String → Option String
  mmapErr : String → Option String
  mknodErr : String → Option String
  glob : String → Nat → GlobRes

/-- Environment roots (DEVFS / SYSFS overridable at process start). -/
structure Env where
  sysfs : String
  devfs : String
deriving DecidableEq

/-- Mutating filesystem actions, in the order the code performs them. -/
inductive Action
  | write (path content : String)
  | mkdirAll (path : String)
  | symlink (oldPath newPath : String)
  | remove (path : String)
  | mknod (path : String) (major minor : Int)
  | openUio (path : String) (flags : Nat)
  | mmapSharedRW (len : Nat)
  | devReady (cmdCap respCap : Nat)
  | closeUio
deriving DecidableEq

/-- Errors, named after the spec's error kinds where the spec names the
corresponding fmt.Errorf site. -/
inductive Err
  | lstatFailed (path msg : String)
  | statPanic (path : String)
  | notADir (path : String)
  | mkdirFailed (path msg : String)
  | sysfsWrite (path msg : String)
  | blockFailed (vol : String)
  | resetRingFailed (vol : String)
  | unblockFailed (vol : String)
  | recoveryUnsupported
  | removeFailed (path msg : String)
  | teardownTimeout (path : String)
  | symlinkFailed (path msg : String)
  | deviceNodeConflict (path : String)
  | readFailed (path msg : String)
  | scsiAddressTimeout (pattern : String)
  | tooManyMatches (pattern : String) (n : Nat)
  | invalidMajorMinor (s : String)
  | atoiFailed (s : String)
  | sliceIndexPanic (name : String)
  | openFailed (path msg : String)
  | parseUintFailed (s : String)
  | mmapFailed (path msg : String)
  | mknodFailed (path msg : String)
deriving DecidableEq

deriving instance DecidableEq for Except

/-- Effectful computation: the trace of mutating actions performed, and
either a value or the error that aborted the call. -/
abbrev EW (α : Type) : Type := List Action × Except Err α

/-- Sequencing: an error short-circuits, traces concatenate. -/
def EW.bind {α β : Type} (x : EW α) (f : α → EW β) : EW β :=
  match x with
  | (t, Except.error e) => (t, Except.error e)
  | (t, Except.ok a) => (t ++ (f a).1, (f a).2)

/-- Pure value, no actions. -/
def EW.pure {α : Type} (a : α) : EW α := ([], Except.ok a)

/-- Record one action. -/
def EW.emit (a : Action) : EW Unit := ([a], Except.ok ())

/-- Abort with an error. -/
def EW.fail {α : Type} (e : Err) : EW α := ([], Except.error e)

/-- Replace the error of a failed computation (Go wrapping a returned
error in a new fmt.Errorf). -/
def EW.mapErr {α : Type} (x : EW α) (e : Err) : EW α :=
  match x with
  | (t, Except.error _) => (t, Except.error e)
  | r => r



/-! ### Paths (init and the small path helpers of device.go) -/

/-- configDirFmt instantiated at an HBA index. -/
def configDir (env : Env) (hba : Nat) : String :=
  env.sysfs ++ "/kernel/config/target/core/user_" ++ toString hba

/-- scsiDir from init. -/
def scsiDir (env : Env) : String := env.sysfs ++ "/kernel/config/target/loopback"

/-- Device.GetDevConfig. -/
def GetDevConfig (h : SCSIHandler) : String := "go-tcmu//" ++ h.VolumeName

/-- d.hbaDir as set in OpenTCMUDevice. -/
def hbaDir (env : Env) (h : SCSIHandler) : String := configDir env h.HBA

/-- First component of getSCSIPrefixAndWnn. -/
def tpgtPath (env : Env) (h : SCSIHandler) : String :=
  pjoin (pjoin (scsiDir env) h.DeviceID) "tpgt_1"

/-- getLunPath applied to the tpgt path. -/
def getLunPath (env : Env) (h : SCSIHandler) : String :=
  pjoin (pjoin (tpgtPath env h) "lun") ("lun_" ++ toString h.LUN)

/-- getActionAttrDir (an Sprintf with slashes in the source). -/
def actionAttrDir (env : Env) (h : SCSIHandler) : String :=
  hbaDir env h ++ "/" ++ h.VolumeName ++ "/attrib"

/-- The block_dev recovery attribute path. -/
def blockDevAttr (env : Env) (h : SCSIHandler) : String :=
  pjoin (actionAttrDir env h) "block_dev"

/-- The reset_ring recovery attribute path. -/
def resetRingAttr (env : Env) (h : SCSIHandler) : String :=
  pjoin (actionAttrDir env h) "reset_ring"

/-- The control attribute path written by preEnableTcmu. -/
def controlPath (env : Env) (h : SCSIHandler) : String :=
  pjoin (pjoin (hbaDir env h) h.VolumeName) "control"

/-- The enable attribute path written by preEnableTcmu. -/
def enablePath (env : Env) (h : SCSIHandler) : String :=
  pjoin (pjoin (hbaDir env h) h.VolumeName) "enable"

/-! ### writeLines -/

/-- The write loop of writeLines: each line is one WriteFile call of the
line plus a newline. -/
def writeLoop (fs : FS) (target : String) : List String → EW Unit
  | [] => EW.pure ()
  | l :: rest =>
    EW.bind (EW.emit (Action.write target (l ++ "\n"))) (fun _ =>
      match fs.writeErr target (l ++ "\n") with
      | some m => EW.fail (Err.sysfsWrite target m)
      | none => writeLoop fs target rest)

/-- writeLines: ensure the parent directory exists, then write each line.
A stat error that is not IsNotExist leaves the Go FileInfo nil and the
IsDir call panics, modelled as statPanic. -/
def writeLines (fs : FS) (target : String) (lines : List String) : EW Unit :=
  match fs.stat (pdir target) with
  | StatRes.notExist =>
    EW.bind (EW.emit (Action.mkdirAll (pdir target))) (fun _ =>
      match fs.mkdir (pdir target) with
      | MkdirRes.okM => writeLoop fs target lines
      | MkdirRes.isExist => EW.fail (Err.mkdirFailed (pdir target) "file exists")
      | MkdirRes.errM m => EW.fail (Err.mkdirFailed (pdir target) m))
  | StatRes.found d =>
    if d then writeLoop fs target lines else EW.fail (Err.notADir (pdir target))
  | StatRes.errS _ => EW.fail (Err.statPanic (pdir target))

/-! ### Creation-side sysfs operations -/

/-- The key=value lines preEnableTcmu writes to the control attribute;
the hw_max_sectors product is int64 arithmetic. -/
def controlLines (h : SCSIHandler) : List String :=
  [ "dev_size=" ++ toString h.sizes.VolumeSize,
    "dev_config=" ++ GetDevConfig h,
    "hw_block_size=" ++ toString h.sizes.BlockSize,
    "hw_max_sectors=" ++
      toString (Int.tdiv (wrap64 (h.sizes.BlockXferMax * h.sizes.BlockSize)) 1024),
    "max_data_area_mb=2048",
    "async=1" ]

/-- preEnableTcmu: write the control lines, then "1" to enable. -/
def preEnableTcmu (env : Env) (fs : FS) (h : SCSIHandler) : EW Unit :=
  EW.bind (writeLines fs (controlPath env h) (controlLines h)) (fun _ =>
    writeLines fs (enablePath env h) ["1"])

/-- The syscall.Mknod wrapper; the claims only track major and minor. -/
def mknodGo (fs : FS) (device : String) (major minor : Int) : EW Unit :=
  EW.bind (EW.emit (Action.mknod device major minor)) (fun _ =>
    match fs.mknodErr device with
    | some m => EW.fail (Err.mknodFailed device m)
    | none => EW.pure ())

/-- The glob pattern polled by createDevEntry. -/
def devPattern (env : Env) (address : String) : String :=
  env.sysfs ++ "/bus/scsi/devices/" ++ trimSpace address ++ "*/block/*/dev"

/-- The 30-iteration polling loop of createDevEntry: attempt i queries
the glob oracle at index i; the loop stops at the first attempt with a
nonempty match list and a nil error. -/
def pollGlobAux (g : Nat → GlobRes) : Nat → Nat → Option (List String)
  | _, 0 => none
  | i, fuel + 1 =>
    if (g i).found ≠ [] ∧ (g i).err = none then some (g i).found
    else pollGlobAux g (i + 1) fuel

/-- The whole 30-attempt poll. -/
def pollGlob (g : Nat → GlobRes) : Option (List String) := pollGlobAux g 0 30

/-- The block-device node path devPath/volume. -/
def devNode (devPath : String) (h : SCSIHandler) : String :=
  pjoin devPath h.VolumeName

/-- The loopback address attribute path. -/
def addrPath (env : Env) (h : SCSIHandler) : String :=
  pjoin (tpgtPath env h) "address"

/-- createDevEntry: make the devPath directory (error discarded), refuse
an existing node, read the SCSI address, poll the glob, demand a unique
match, parse major:minor, mknod. -/
def createDevEntry (env : Env) (fs : FS) (h : SCSIHandler) (devPath : String) : EW Unit :=
  EW.bind (EW.emit (Action.mkdirAll devPath)) (fun _ =>
    match fs.stat (devNode devPath h) with
    | StatRes.found _ => EW.fail (Err.deviceNodeConflict (devNode devPath h))
    | _ =>
      match fs.readFile (addrPath env h) with
      | Except.error m => EW.fail (Err.readFailed (addrPath env h) m)
      | Except.ok address =>
        match pollGlob (fs.glob (devPattern env address)) with
        | none => EW.fail (Err.scsiAddressTimeout (devPattern env address))
        | some ms =>
          match ms with
          | [] => EW.fail (Err.scsiAddressTimeout (devPattern env address))
          | [m] =>
            (match fs.readFile m with
            | Except.error e => EW.fail (Err.readFailed m e)
            | Except.ok mm =>
              match goSplit ':' (trimSpace mm) with
              | [p1, p2] =>
                (match goAtoi p1 with
                | none => EW.fail (Err.atoiFailed p1)
                | some major =>
                  match goAtoi p2 with
                  | none => EW.fail (Err.atoiFailed p2)
                  | some minor => mknodGo fs (devNode devPath h) major minor)
              | _ => EW.fail (Err.invalidMajorMinor mm))
          | _ :: _ :: _ => EW.fail (Err.tooManyMatches (devPattern env address) ms.length))

/-- postEnableTcmu: nexus write, LUN dir (IsExist tolerated), symlink,
then createDevEntry. -/
def linkOld (env : Env) (h : SCSIHandler) : String :=
  pjoin (hbaDir env h) h.VolumeName

def linkNew (env : Env) (h : SCSIHandler) : String :=
  pjoin (getLunPath env h) h.VolumeName

def postEnableTcmu (env : Env) (fs : FS) (h : SCSIHandler) (devPath : String) : EW Unit :=
  EW.bind (writeLines fs (pjoin (tpgtPath env h) "nexus") [h.NexusID]) (fun _ =>
    EW.bind (EW.emit (Action.mkdirAll (getLunPath env h))) (fun _ =>
      match fs.mkdir (getLunPath env h) with
      | MkdirRes.errM m => EW.fail (Err.mkdirFailed (getLunPath env h) m)
      | _ =>
        EW.bind (EW.emit (Action.symlink (linkOld env h) (linkNew env h))) (fun _ =>
          match fs.symlinkErr (linkOld env h) (linkNew env h) with
          | some m => EW.fail (Err.symlinkFailed (linkNew env h) m)
          | none => createDevEntry env fs h devPath)))

/-! ### Teardown -/

/-- remove: one os.Remove on a worker, raced against a 30-second timer.
NotExist counts as success; a timeout yields the teardown-timeout error. -/
def removeGo (fs : FS) (p : String) : EW Unit :=
  EW.bind (EW.emit (Action.remove p)) (fun _ =>
    match fs.removeRes p with
    | RemoveOutcome.okR => EW.pure ()
    | RemoveOutcome.notFound => EW.pure ()
    | RemoveOutcome.failR m => EW.fail (Err.removeFailed p m)
    | RemoveOutcome.timeoutR => EW.fail (Err.teardownTimeout p))

/-- The removal loop of teardown; the first error aborts it. -/
def removeList (fs : FS) : List String → EW Unit
  | [] => EW.pure ()
  | p :: rest => EW.bind (removeGo fs p) (fun _ => removeList fs rest)

/-- The five paths teardown removes, in source order. -/
def teardownPaths (env : Env) (h : SCSIHandler) : List String :=
  [ pjoin (getLunPath env h) h.VolumeName,
    getLunPath env h,
    tpgtPath env h,
    pdir (tpgtPath env h),
    pjoin (hbaDir env h) h.VolumeName ]

/-- teardown: remove the five paths, then the residual device node when
a stat of it succeeds. -/
def teardown (env : Env) (fs : FS) (h : SCSIHandler) (devPath : String) : EW Unit :=
  EW.bind (removeList fs (teardownPaths env h)) (fun _ =>
    match fs.stat (devNode devPath h) with
    | StatRes.found _ => removeGo fs (devNode devPath h)
    | _ => EW.pure ())

/-- Device.Close: teardown, then stop the poller and close the UIO
handle when one was opened. -/
def closeDevice (env : Env) (fs : FS) (h : SCSIHandler) (devPath : String)
    (uiofSet : Bool) : EW Unit :=
  EW.bind (teardown env fs h devPath) (fun _ =>
    if uiofSet then EW.emit Action.closeUio else EW.pure ())

/-! ### Recovery -/

/-- recoverySupported: the attrib dir must stat as a directory and both
recovery attributes must stat without error. -/
def recoverySupported (env : Env) (fs : FS) (h : SCSIHandler) : Bool :=
  match fs.stat (actionAttrDir env h) with
  | StatRes.found true =>
    (match fs.stat (blockDevAttr env h) with
    | StatRes.found _ =>
      (match fs.stat (resetRingAttr env h) with
      | StatRes.found _ => true
      | _ => false)
    | _ => false)
  | _ => false

/-- block: write "1" to block_dev, wrapping any error. -/
def blockGo (env : Env) (fs : FS) (h : SCSIHandler) : EW Unit :=
  EW.mapErr (writeLines fs (blockDevAttr env h) ["1"]) (Err.blockFailed h.VolumeName)

/-- resetRing: write "1" to reset_ring, wrapping any error. -/
def resetRingGo (env : Env) (fs : FS) (h : SCSIHandler) : EW Unit :=
  EW.mapErr (writeLines fs (resetRingAttr env h) ["1"]) (Err.resetRingFailed h.VolumeName)

/-- unblock: write "0" to block_dev, wrapping any error. -/
def unblockGo (env : Env) (fs : FS) (h : SCSIHandler) : EW Unit :=
  EW.mapErr (writeLines fs (blockDevAttr env h) ["0"]) (Err.unblockFailed h.VolumeName)

/-- cleanup: recovery guard, then block / resetRing / unblock. -/
def cleanup (env : Env) (fs : FS) (h : SCSIHandler) : EW Unit :=
  if recoverySupported env fs h then
    EW.bind (blockGo env fs h) (fun _ =>
      EW.bind (resetRingGo env fs h) (fun _ => unblockGo env fs h))
  else EW.fail Err.recoveryUnsupported

/-! ### UIO attach -/

/-- O_RDWR ||| O_NONBLOCK ||| O_CLOEXEC on Linux (0x2, 0x800, 0x80000). -/
def uioOpenFlags : Nat := 2 + 2048 + 524288

/-- The handle state openDevice stores on the Device. -/
structure UioHandle where
  deviceName : String
  mapsize : Nat
deriving DecidableEq

/-- class/uio/[uio]/name under sysfs. -/
def uioNamePath (env : Env) (uio : String) : String :=
  env.sysfs ++ "/class/uio/" ++ uio ++ "/name"

/-- class/uio/[uio]/maps/map0/size under sysfs. -/
def uioMapSizePath (env : Env) (uio : String) : String :=
  env.sysfs ++ "/class/uio/" ++ uio ++ "/maps/map0/size"

/-- openDevice: open the UIO char device, read map0/size, mmap the whole
region shared read/write. -/
def openDevice (env : Env) (fs : FS) (user vol uio : String) : EW UioHandle :=
  EW.bind (EW.emit (Action.openUio (env.devfs ++ "/" ++ uio) uioOpenFlags)) (fun _ =>
    match fs.openErr (env.devfs ++ "/" ++ uio) with
    | some m => EW.fail (Err.openFailed (env.devfs ++ "/" ++ uio) m)
    | none =>
      match fs.readFile (uioMapSizePath env uio) with
      | Except.error m => EW.fail (Err.readFailed (uioMapSizePath env uio) m)
      | Except.ok bytes =>
        match parseGoUint (trimRightNl bytes) with
        | none => EW.fail (Err.parseUintFailed bytes)
        | some n =>
          EW.bind (EW.emit (Action.mmapSharedRW n)) (fun _ =>
            match fs.mmapErr (env.devfs ++ "/" ++ uio) with
            | some m => EW.fail (Err.mmapFailed (env.devfs ++ "/" ++ uio) m)
            | none => EW.pure { deviceName := vol, mapsize := n }))

/-- The four SplitN fields of a uio name-file content, newline-trimmed. -/
def uioFields (c : String) : List String := goSplitN4 '/' (trimRightNl c)

/-- The walk function of findDevice over the devfs entries in walk
order: skip non-root directories and names without the uio leading
string, read the uio name file, SplitN into at most 4 fields, match on
the transport family and the dev_config, open on the first match and
stop.  A tcm-user name with fewer than four fields makes the Go code
index past the slice, modelled as sliceIndexPanic. -/
def walkUio (env : Env) (fs : FS) (h : SCSIHandler) : List DevEntry → EW (Option UioHandle)
  | [] => EW.pure none
  | e :: rest =>
    if e.isDir && !e.isRoot then walkUio env fs h rest
    else if !(hasPref e.name "uio") then walkUio env fs h rest
    else
      match fs.readFile (uioNamePath env e.name) with
      | Except.error m => EW.fail (Err.readFailed (uioNamePath env e.name) m)
      | Except.ok c =>
        if (uioFields c).headD "" ≠ "tcm-user" then walkUio env fs h rest
        else
          match (uioFields c).get? 3 with
          | none => EW.fail (Err.sliceIndexPanic e.name)
          | some s3 =>
            if s3 ≠ GetDevConfig h then walkUio env fs h rest
            else
              EW.bind
                (openDevice env fs (((uioFields c).get? 1).getD "")
                  (((uioFields c).get? 2).getD "") e.name)
                (fun uh => EW.pure (some uh))

/-- findDevice: walk the devfs entries; no match leaves the walk with a
nil error and no handle. -/
def findDevice (env : Env) (fs : FS) (h : SCSIHandler) : EW (Option UioHandle) :=
  walkUio env fs h fs.devEntries

/-- start: attach, create the two capacity-5 channels, launch the
poller, and hand the channels to DevReady. -/
def start (env : Env) (fs : FS) (h : SCSIHandler) : EW (Option UioHandle) :=
  EW.bind (findDevice env fs h) (fun uh =>
    EW.bind (EW.emit (Action.devReady 5 5)) (fun _ => EW.pure uh))

/-- The recovery branch of OpenTCMUDevice: cleanup then start. -/
def recoverAndStart (env : Env) (fs : FS) (h : SCSIHandler) : EW (Option UioHandle) :=
  EW.bind (cleanup env fs h) (fun _ => start env fs h)

/-- OpenTCMUDevice: recovery when an Lstat of devPath/volume succeeds,
otherwise Close (uiof still nil), preEnableTcmu, start, postEnableTcmu. -/
def openTCMUDevice (env : Env) (fs : FS) (devPath : String) (h : SCSIHandler) :
    EW (Option UioHandle) :=
  match fs.lstat (devNode devPath h) with
  | StatRes.errS m => EW.fail (Err.lstatFailed (devNode devPath h) m)
  | StatRes.found _ => recoverAndStart env fs h
  | StatRes.notExist =>
    EW.bind (closeDevice env fs h devPath false) (fun _ =>
      EW.bind (preEnableTcmu env fs h) (fun _ =>
        EW.bind (start env fs h) (fun uh =>
          EW.bind (postEnableTcmu env fs h devPath) (fun _ => EW.pure uh))))

/-! ### Derived predicates and helpers -/

/-- The error `remove` returns for an outcome it does not treat as
success. -/
def removeErrOf (p : String) : RemoveOutcome → Err
  | RemoveOutcome.failR m => Err.removeFailed p m
  | RemoveOutcome.timeoutR => Err.teardownTimeout p
  | _ => Err.removeFailed p ""

/-- An attempt the polling loop accepts: nonempty matches, nil error. -/
def goodAttempt (g : Nat → GlobRes) (i : Nat) : Prop :=
  (g i).found ≠ [] ∧ (g i).err = none

instance (g : Nat → GlobRes) (i : Nat) : Decidable (goodAttempt g i) := by
  unfold goodAttempt
  infer_instance

/-- The DevReady callback action. -/
def Action.isDevReady : Action → Bool
  | Action.devReady _ _ => true
  | _ => false

/-- Actions of the UIO attach (open and mmap). -/
def Action.isAttach : Action → Bool
  | Action.openUio _ _ => true
  | Action.mmapSharedRW _ => true
  | _ => false

/-- Actions the sysfs / teardown phases can emit: neither a DevReady
callback nor an attach. -/
def nonStartA (a : Action) : Bool := !(Action.isDevReady a) && !(Action.isAttach a)

/-- Not a DevReady callback action. -/
def noDevReadyA (a : Action) : Bool := !(Action.isDevReady a)

/-- An entry the walk passes over without effect: a non-root directory,
a name without the uio leading string, or a readable name file whose
first field is not tcm-user, or whose fourth field exists but differs
from the dev_config. -/
def entrySkips (env : Env) (fs : FS) (h : SCSIHandler) (e : DevEntry) : Prop :=
  (e.isDir && !e.isRoot) = true
  ∨ hasPref e.name "uio" = false
  ∨ (∃ c, fs.readFile (uioNamePath env e.name) = Except.ok c ∧
      ((uioFields c).headD "" ≠ "tcm-user"
        ∨ ∃ s3, (uioFields c).get? 3 = some s3 ∧ s3 ≠ GetDevConfig h))

/-! ### Concrete instances for the closed evaluation theorems -/

def envW : Env := { sysfs := "/sys", devfs := "/dev" }

def sizesW : DataSizes :=
  { VolumeSize := 1073741824, BlockSize := 512, BlockXferMax := 256 }

def hW : SCSIHandler :=
  SCSIHandler.mk "vol0" 42 0 sizesW "naa.6001405a" "naa.6001405b"

def attribDirW : String := "/sys/kernel/config/target/core/user_42/vol0/attrib"

def tpgtW : String := "/sys/kernel/config/target/loopback/naa.6001405a/tpgt_1"

def matchW : String := "/sys/bus/scsi/devices/2:0:0:0:0/block/sda/dev"

def lunVolW : String := tpgtW ++ "/lun/lun_0/vol0"

def lunDirW : String := tpgtW ++ "/lun/lun_0"

/-- Leftover state: the device node exists, the kernel supports recovery,
attribute writes succeed, and no uio entry beyond the devfs root. -/
def fsRec : FS where
  lstat := fun p => if p = "/dev/x/vol0" then StatRes.found false else StatRes.notExist
  stat := fun p =>
    if p = attribDirW then StatRes.found true
    else if p = attribDirW ++ "/block_dev" then StatRes.found false
    else if p = attribDirW ++ "/reset_ring" then StatRes.found false
    else StatRes.notExist
  readFile := fun _ => Except.error "ENOENT"
  writeErr := fun _ _ => none
  mkdir := fun _ => MkdirRes.okM
  symlinkErr := fun _ _ => none
  removeRes := fun _ => RemoveOutcome.okR
  devEntries := [DevEntry.mk "dev" true true]
  openErr := fun _ => none
  mmapErr := fun _ => none
  mknodErr := fun _ => none
  glob := fun _ _ => GlobRes.mk [] none

/-- A fresh machine where full creation succeeds: dirs present, one
matching uio entry after assorted skipped entries, the glob resolving on
the third attempt to a single match holding 8:32. -/
def fsCreate : FS where
  lstat := fun _ => StatRes.notExist
  stat := fun p =>
    if p = "/sys/kernel/config/target/core/user_42/vol0" then StatRes.found true
    else if p = tpgtW then StatRes.found true
    else StatRes.notExist
  readFile := fun p =>
    if p = tpgtW ++ "/address" then Except.ok " 2:0:0:0\n"
    else if p = "/sys/class/uio/uio0/name" then Except.ok "ppp/a/b/c"
    else if p = "/sys/class/uio/uio3/name" then Except.ok "tcm-user/42/vol0/go-tcmu//vol0\n"
    else if p = "/sys/class/uio/uio3/maps/map0/size" then Except.ok "0x400000\n"
    else if p = matchW then Except.ok "8:32\n"
    else Except.error "ENOENT"
  writeErr := fun _ _ => none
  mkdir := fun _ => MkdirRes.okM
  symlinkErr := fun _ _ => none
  removeRes := fun _ => RemoveOutcome.notFound
  devEntries :=
    [DevEntry.mk "dev" true true, DevEntry.mk "block" true false,
      DevEntry.mk "null" false false, DevEntry.mk "uio0" false false,
      DevEntry.mk "uio3" false false, DevEntry.mk "uio9" false false]
  openErr := fun _ => none
  mmapErr := fun _ => none
  mknodErr := fun _ => none
  glob := fun _ i => if i = 2 then GlobRes.mk [matchW] none else GlobRes.mk [] none

/-- Teardown scene where removing the LUN symlink fails with EBUSY while
every other removal would succeed. -/
def fsFailFirst : FS where
  lstat := fun _ => StatRes.notExist
  stat := fun _ => StatRes.notExist
  readFile := fun _ => Except.error "ENOENT"
  writeErr := fun _ _ => none
  mkdir := fun _ => MkdirRes.okM
  symlinkErr := fun _ _ => none
  removeRes := fun p =>
    if p = lunVolW then RemoveOutcome.failR "EBUSY" else RemoveOutcome.okR
  devEntries := []
  openErr := fun _ => none
  mmapErr := fun _ => none
  mknodErr := fun _ => none
  glob := fun _ _ => GlobRes.mk [] none

/-- Teardown scene where the second removal (the LUN directory) blocks
past the 30-second window. -/
def fsTimeout2 : FS where
  lstat := fun _ => StatRes.notExist
  stat := fun _ => StatRes.notExist
  readFile := fun _ => Except.error "ENOENT"
  writeErr := fun _ _ => none
  mkdir := fun _ => MkdirRes.okM
  symlinkErr := fun _ _ => none
  removeRes := fun p =>
    if p = lunDirW then RemoveOutcome.timeoutR else RemoveOutcome.okR
  devEntries := []
  openErr := fun _ => none
  mmapErr := fun _ => none
  mknodErr := fun _ => none
  glob := fun _ _ => GlobRes.mk [] none

/-- A scene where the SCSI address glob resolves to two block devices. -/
def fsMulti : FS where
  lstat := fun _ => StatRes.notExist
  stat := fun _ => StatRes.notExist
  readFile := fun p =>
    if p = tpgtW ++ "/address" then Except.ok " 2:0:0:0\n" else Except.error "ENOENT"
  writeErr := fun _ _ => none
  mkdir := fun _ => MkdirRes.okM
  symlinkErr := fun _ _ => none
  removeRes := fun _ => RemoveOutcome.okR
  devEntries := []
  openErr := fun _ => none
  mmapErr := fun _ => none
  mknodErr := fun _ => none
  glob := fun _ _ => GlobRes.mk [matchW, matchW ++ "b"] none

/-! ### Generic lemmas -/

@[simp] theorem EW.bind_ok {α β : Type} (t : List Action) (a : α) (f : α → EW β) :
    EW.bind (t, Except.ok a) f = (t ++ (f a).1, (f a).2) := rfl

@[simp] theorem EW.bind_err {α β : Type} (t : List Action) (e : Err) (f : α → EW β) :
    EW.bind (t, Except.error e) f = (t, Except.error e) := rfl



theorem strMk_toList (s : String) : String.mk s.toList = s := by
  cases s
  rfl

theorem toList_ne_nil {s : String} (hs : s ≠ "") : s.toList ≠ [] := by
  intro h
  apply hs
  have := strMk_toList s
  rw [h] at this
  exact this.symm

theorem append_ne_empty_right (a b : String) (hb : b ≠ "") : a ++ b ≠ "" := by
  intro h
  apply toList_ne_nil hb
  have hdata : a.toList ++ b.toList = ([] : List Char) := congrArg String.toList h
  exact (List.append_eq_nil.mp hdata).2

theorem dropWhile_append_of_all {α : Type} (p : α → Bool) (l1 l2 : List α)
    (h : ∀ c ∈ l1, p c = true) :
    List.dropWhile p (l1 ++ l2) = List.dropWhile p l2 := by
  induction l1 with
  | nil => rfl
  | cons c cs ih =>
    have hc : p c = true := h c (by simp)
    simp only [List.cons_append, List.dropWhile_cons, hc, if_true]
    exact ih (fun x hx => h x (by simp [hx]))

/-- path.Dir of a clean path extended by a slash-free final component is
the original path. -/
theorem pdir_concat (a b : String) (ha : a ≠ "") (hb : b ≠ "")
    (hbs : ∀ c ∈ b.toList, c ≠ '/') :
    pdir (a ++ "/" ++ b) = a := by
  have hdata : (a ++ "/" ++ b).toList = a.toList ++ ['/'] ++ b.toList := rfl
  have hrev : (a ++ "/" ++ b).toList.reverse =
      b.toList.reverse ++ '/' :: a.toList.reverse := by
    rw [hdata]
    simp
  have hdrop : List.dropWhile (fun c => c ≠ '/') ((a ++ "/" ++ b).toList.reverse) =
      '/' :: a.toList.reverse := by
    rw [hrev]
    rw [dropWhile_append_of_all _ _ _
      (fun c hc => by
        simp only [List.mem_reverse] at hc
        simp [hbs c hc])]
    simp [List.dropWhile_cons]
  obtain ⟨c, cs, hcs⟩ := List.exists_cons_of_ne_nil
    (l := a.toList.reverse) (by simpa using toList_ne_nil ha)
  unfold pdir
  rw [hdrop, hcs]
  have : (c :: cs).reverse = a.toList := by
    rw [← hcs]
    exact List.reverse_reverse _
  simp only [this, strMk_toList]

theorem pjoin_pos (a b : String) (ha : a ≠ "") (hb : b ≠ "") :
    pjoin a b = a ++ "/" ++ b := by
  simp [pjoin, ha, hb]

theorem actionAttrDir_ne_empty (env : Env) (h : SCSIHandler) :
    actionAttrDir env h ≠ "" := by
  apply append_ne_empty_right
  decide

theorem pdir_blockDevAttr (env : Env) (h : SCSIHandler) :
    pdir (blockDevAttr env h) = actionAttrDir env h := by
  unfold blockDevAttr
  rw [pjoin_pos _ _ (actionAttrDir_ne_empty env h) (by decide)]
  exact pdir_concat _ _ (actionAttrDir_ne_empty env h) (by decide) (by decide)

theorem pdir_resetRingAttr (env : Env) (h : SCSIHandler) :
    pdir (resetRingAttr env h) = actionAttrDir env h := by
  unfold resetRingAttr
  rw [pjoin_pos _ _ (actionAttrDir_ne_empty env h) (by decide)]
  exact pdir_concat _ _ (actionAttrDir_ne_empty env h) (by decide) (by decide)

/-! ### writeLines behavior -/

theorem writeLoop_ok (fs : FS) (target : String) (ls : List String)
    (hw : ∀ l ∈ ls, fs.writeErr target (l ++ "\n") = none) :
    writeLoop fs target ls =
      (ls.map (fun l => Action.write target (l ++ "\n")), Except.ok ()) := by
  induction ls with
  | nil => rfl
  | cons l rest ih =>
    have hl : fs.writeErr target (l ++ "\n") = none := hw l (by simp)
    simp only [writeLoop, EW.emit, EW.bind_ok, hl]
    rw [ih (fun q hq => hw q (by simp [hq]))]
    simp

theorem writeLines_dirExists (fs : FS) (target : String) (ls : List String)
    (hd : fs.stat (pdir target) = StatRes.found true)
    (hw : ∀ l ∈ ls, fs.writeErr target (l ++ "\n") = none) :
    writeLines fs target ls =
      (ls.map (fun l => Action.write target (l ++ "\n")), Except.ok ()) := by
  unfold writeLines
  rw [hd, writeLoop_ok fs target ls hw]
  simp

/-! ### recoverySupported inversion -/

theorem recoverySupported_inv (env : Env) (fs : FS) (h : SCSIHandler)
    (hs : recoverySupported env fs h = true) :
    fs.stat (actionAttrDir env h) = StatRes.found true ∧
    (fs.stat (blockDevAttr env h)).isFound = true ∧
    (fs.stat (resetRingAttr env h)).isFound = true := by
  unfold recoverySupported at hs
  cases ha : fs.stat (actionAttrDir env h) with
  | found d =>
    cases d with
    | true =>
      rw [ha] at hs
      cases hb : fs.stat (blockDevAttr env h) with
      | found d2 =>
        rw [hb] at hs
        cases hr : fs.stat (resetRingAttr env h) with
        | found d3 => exact ⟨rfl, by simp [hb, StatRes.isFound], by simp [hr, StatRes.isFound]⟩
        | notExist => rw [hr] at hs; exact absurd hs (by simp)
        | errS m => rw [hr] at hs; exact absurd hs (by simp)
      | notExist => rw [hb] at hs; exact absurd hs (by simp)
      | errS m => rw [hb] at hs; exact absurd hs (by simp)
    | false => rw [ha] at hs; exact absurd hs (by simp)
  | notExist => rw [ha] at hs; exact absurd hs (by simp)
  | errS m => rw [ha] at hs; exact absurd hs (by simp)

/-! ### Removal behavior -/


theorem removeGo_good (fs : FS) (p : String)
    (hg : (fs.removeRes p).isGood = true) :
    removeGo fs p = ([Action.remove p], Except.ok ()) := by
  unfold removeGo
  cases hr : fs.removeRes p <;>
    simp_all [RemoveOutcome.isGood, EW.emit, EW.fail, EW.pure]

theorem removeGo_bad (fs : FS) (p : String)
    (hg : (fs.removeRes p).isGood = false) :
    removeGo fs p = ([Action.remove p], Except.error (removeErrOf p (fs.removeRes p))) := by
  unfold removeGo
  cases hr : fs.removeRes p <;>
    simp_all [RemoveOutcome.isGood, removeErrOf, EW.emit, EW.fail, EW.pure]

theorem removeList_allGood (fs : FS) (ps : List String)
    (hg : ∀ p ∈ ps, (fs.removeRes p).isGood = true) :
    removeList fs ps = (ps.map Action.remove, Except.ok ()) := by
  induction ps with
  | nil => rfl
  | cons p rest ih =>
    simp only [removeList, removeGo_good fs p (hg p (by simp)), EW.bind_ok]
    rw [ih (fun q hq => hg q (by simp [hq]))]
    simp

theorem removeList_firstBad (fs : FS) (l1 : List String) (p : String) (l2 : List String)
    (hg : ∀ q ∈ l1, (fs.removeRes q).isGood = true)
    (hb : (fs.removeRes p).isGood = false) :
    removeList fs (l1 ++ p :: l2) =
      ((l1 ++ [p]).map Action.remove,
        Except.error (removeErrOf p (fs.removeRes p))) := by
  induction l1 with
  | nil =>
    simp only [List.nil_append, removeList, removeGo_bad fs p hb, EW.bind_err, List.map]
  | cons q rest ih =>
    simp only [List.cons_append, removeList,
      removeGo_good fs q (hg q (by simp)), EW.bind_ok, List.append_eq]
    rw [ih (fun r hr => hg r (by simp [hr]))]
    simp

/-! ### Glob polling behavior -/


theorem pollGlobAux_none (g : Nat → GlobRes) (fuel : Nat) :
    ∀ i, (∀ j, j < fuel → ¬ goodAttempt g (i + j)) →
    pollGlobAux g i fuel = none := by
  induction fuel with
  | zero => intro i _; rfl
  | succ n ih =>
    intro i hbad
    have h0 : ¬ goodAttempt g i := by
      have := hbad 0 (Nat.succ_pos n)
      simpa using this
    unfold pollGlobAux
    rw [if_neg (show ¬((g i).found ≠ [] ∧ (g i).err = none) from h0)]
    exact ih (i + 1) (fun j hj => by
      have := hbad (j + 1) (Nat.succ_lt_succ hj)
      have harith : i + (j + 1) = i + 1 + j := by omega
      rwa [harith] at this)

theorem pollGlobAux_found (g : Nat → GlobRes) (fuel : Nat) :
    ∀ i j, j < fuel → (∀ k, k < j → ¬ goodAttempt g (i + k)) →
    goodAttempt g (i + j) →
    pollGlobAux g i fuel = some ((g (i + j)).found) := by
  induction fuel with
  | zero => intro i j hj _ _; omega
  | succ n ih =>
    intro i j hj hbefore hgood
    unfold pollGlobAux
    cases j with
    | zero =>
      rw [if_pos (show (g i).found ≠ [] ∧ (g i).err = none by simpa using hgood)]
      simp
    | succ j0 =>
      have h0 : ¬ goodAttempt g i := by
        have := hbefore 0 (Nat.succ_pos j0)
        simpa using this
      rw [if_neg (show ¬((g i).found ≠ [] ∧ (g i).err = none) from h0)]
      have harith : i + (j0 + 1) = i + 1 + j0 := by omega
      rw [harith] at hgood
      rw [ih (i + 1) j0 (by omega)
        (fun k hk => by
          have := hbefore (k + 1) (Nat.succ_lt_succ hk)
          have ha2 : i + (k + 1) = i + 1 + k := by omega
          rwa [ha2] at this) hgood]
      rw [harith]

theorem pollGlob_none (g : Nat → GlobRes)
    (hbad : ∀ j, j < 30 → ¬ goodAttempt g j) :
    pollGlob g = none :=
  pollGlobAux_none g 30 0 (fun j hj => by simpa using hbad j hj)

theorem pollGlob_found (g : Nat → GlobRes) (j : Nat) (hj : j < 30)
    (hbefore : ∀ k, k < j → ¬ goodAttempt g k) (hgood : goodAttempt g j) :
    pollGlob g = some ((g j).found) := by
  have := pollGlobAux_found g 30 0 j hj
    (fun k hk => by simpa using hbefore k hk) (by simpa using hgood)
  simpa using this

/-! ### Trace classification (which actions each phase can emit) -/


theorem traceAll_bind {α β : Type} {p : Action → Bool} {x : EW α} {f : α → EW β}
    (hx : ∀ a ∈ x.1, p a = true) (hf : ∀ v, ∀ a ∈ (f v).1, p a = true) :
    ∀ a ∈ (EW.bind x f).1, p a = true := by
  obtain ⟨t, r⟩ := x
  cases r with
  | error e => simpa [EW.bind] using hx
  | ok v =>
    intro a ha
    simp only [EW.bind] at ha
    rcases List.mem_append.mp ha with h1 | h2
    · exact hx a h1
    · exact hf v a h2

theorem EW.mapErr_fst {α : Type} (x : EW α) (e : Err) :
    (EW.mapErr x e).1 = x.1 := by
  obtain ⟨t, r⟩ := x
  cases r <;> rfl

theorem writeLoop_nonStart (fs : FS) (target : String) (ls : List String) :
    ∀ a ∈ (writeLoop fs target ls).1, nonStartA a = true := by
  induction ls with
  | nil => intro a ha; simp [writeLoop, EW.pure] at ha
  | cons l rest ih =>
    intro a ha
    simp only [writeLoop, EW.emit, EW.bind_ok] at ha
    rcases List.mem_append.mp ha with h1 | h2
    · simp at h1
      subst h1
      rfl
    · cases hw : fs.writeErr target (l ++ "\n") with
      | some m => rw [hw] at h2; simp [EW.fail] at h2
      | none => rw [hw] at h2; exact ih a h2

theorem writeLines_nonStart (fs : FS) (target : String) (ls : List String) :
    ∀ a ∈ (writeLines fs target ls).1, nonStartA a = true := by
  intro a ha
  unfold writeLines at ha
  split at ha
  · simp only [EW.emit, EW.bind_ok] at ha
    rcases List.mem_append.mp ha with h1 | h2
    · simp at h1
      subst h1
      rfl
    · split at h2
      · exact writeLoop_nonStart fs target ls a h2
      · simp [EW.fail] at h2
      · simp [EW.fail] at h2
  · split at ha
    · exact writeLoop_nonStart fs target ls a ha
    · simp [EW.fail] at ha
  · simp [EW.fail] at ha

theorem mknodGo_nonStart (fs : FS) (device : String) (major minor : Int) :
    ∀ a ∈ (mknodGo fs device major minor).1, nonStartA a = true := by
  intro a ha
  unfold mknodGo at ha
  simp only [EW.emit, EW.bind_ok] at ha
  rcases List.mem_append.mp ha with h1 | h2
  · simp at h1
    subst h1
    rfl
  · split at h2
    · simp [EW.fail] at h2
    · simp [EW.pure] at h2

theorem createDevEntry_nonStart (env : Env) (fs : FS) (h : SCSIHandler) (devPath : String) :
    ∀ a ∈ (createDevEntry env fs h devPath).1, nonStartA a = true := by
  intro a ha
  unfold createDevEntry at ha
  simp only [EW.emit, EW.bind_ok] at ha
  rcases List.mem_append.mp ha with h1 | h2
  · simp at h1
    subst h1
    rfl
  · repeat' split at h2
    all_goals
      first
      | simp [EW.fail] at h2
      | exact mknodGo_nonStart fs _ _ _ a h2

theorem removeGo_nonStart (fs : FS) (p : String) :
    ∀ a ∈ (removeGo fs p).1, nonStartA a = true := by
  intro a ha
  unfold removeGo at ha
  simp only [EW.emit, EW.bind_ok] at ha
  rcases List.mem_append.mp ha with h1 | h2
  · simp at h1
    subst h1
    rfl
  · split at h2 <;> simp [EW.fail, EW.pure] at h2

theorem removeList_nonStart (fs : FS) (ps : List String) :
    ∀ a ∈ (removeList fs ps).1, nonStartA a = true := by
  induction ps with
  | nil => intro a ha; simp [removeList, EW.pure] at ha
  | cons p rest ih =>
    intro a ha
    unfold removeList at ha
    exact traceAll_bind (removeGo_nonStart fs p) (fun _ => ih) a ha

theorem teardown_nonStart (env : Env) (fs : FS) (h : SCSIHandler) (devPath : String) :
    ∀ a ∈ (teardown env fs h devPath).1, nonStartA a = true := by
  intro a ha
  unfold teardown at ha
  refine traceAll_bind (removeList_nonStart fs _) (fun _ => ?_) a ha
  intro b hb2
  split at hb2
  · exact removeGo_nonStart fs _ b hb2
  · simp [EW.pure] at hb2

theorem closeDevice_nonStart (env : Env) (fs : FS) (h : SCSIHandler) (devPath : String)
    (us : Bool) :
    ∀ a ∈ (closeDevice env fs h devPath us).1, nonStartA a = true := by
  intro a ha
  unfold closeDevice at ha
  refine traceAll_bind (teardown_nonStart env fs h devPath) (fun _ => ?_) a ha
  intro b hb2
  cases us with
  | true =>
    simp only [if_true, EW.emit, List.mem_singleton] at hb2
    subst hb2
    rfl
  | false => simp [EW.pure] at hb2

theorem preEnableTcmu_nonStart (env : Env) (fs : FS) (h : SCSIHandler) :
    ∀ a ∈ (preEnableTcmu env fs h).1, nonStartA a = true := by
  intro a ha
  unfold preEnableTcmu at ha
  exact traceAll_bind (writeLines_nonStart fs _ _)
    (fun _ => writeLines_nonStart fs _ _) a ha

theorem postEnableTcmu_nonStart (env : Env) (fs : FS) (h : SCSIHandler) (devPath : String) :
    ∀ a ∈ (postEnableTcmu env fs h devPath).1, nonStartA a = true := by
  intro a ha
  unfold postEnableTcmu at ha
  refine traceAll_bind (writeLines_nonStart fs _ _) (fun _ => ?_) a ha
  intro b hb2
  refine traceAll_bind (p := nonStartA) ?_ (fun _ => ?_) b hb2
  · intro c hc
    simp only [EW.emit, List.mem_singleton] at hc
    subst hc
    rfl
  · intro c hc
    split at hc
    · simp [EW.fail] at hc
    · refine traceAll_bind (p := nonStartA) ?_ (fun _ => ?_) c hc
      · intro d hd
        simp only [EW.emit, List.mem_singleton] at hd
        subst hd
        rfl
      · intro d hd
        split at hd
        · simp [EW.fail] at hd
        · exact createDevEntry_nonStart env fs h devPath d hd

theorem blockGo_nonStart (env : Env) (fs : FS) (h : SCSIHandler) :
    ∀ a ∈ (blockGo env fs h).1, nonStartA a = true := by
  intro a ha
  unfold blockGo at ha
  rw [EW.mapErr_fst] at ha
  exact writeLines_nonStart fs _ _ a ha

theorem resetRingGo_nonStart (env : Env) (fs : FS) (h : SCSIHandler) :
    ∀ a ∈ (resetRingGo env fs h).1, nonStartA a = true := by
  intro a ha
  unfold resetRingGo at ha
  rw [EW.mapErr_fst] at ha
  exact writeLines_nonStart fs _ _ a ha

theorem unblockGo_nonStart (env : Env) (fs : FS) (h : SCSIHandler) :
    ∀ a ∈ (unblockGo env fs h).1, nonStartA a = true := by
  intro a ha
  unfold unblockGo at ha
  rw [EW.mapErr_fst] at ha
  exact writeLines_nonStart fs _ _ a ha

theorem cleanup_nonStart (env : Env) (fs : FS) (h : SCSIHandler) :
    ∀ a ∈ (cleanup env fs h).1, nonStartA a = true := by
  intro a ha
  unfold cleanup at ha
  split at ha
  · refine traceAll_bind (blockGo_nonStart env fs h) (fun _ => ?_) a ha
    exact traceAll_bind (resetRingGo_nonStart env fs h)
      (fun _ => unblockGo_nonStart env fs h)
  · simp [EW.fail] at ha

theorem openDevice_noDevReady (env : Env) (fs : FS) (user vol uio : String) :
    ∀ a ∈ (openDevice env fs user vol uio).1, noDevReadyA a = true := by
  intro a ha
  unfold openDevice at ha
  simp only [EW.emit, EW.bind_ok] at ha
  rcases List.mem_append.mp ha with h1 | h2
  · simp at h1
    subst h1
    rfl
  · split at h2
    · simp [EW.fail] at h2
    · split at h2
      · simp [EW.fail] at h2
      · split at h2
        · simp [EW.fail] at h2
        · simp only [EW.emit, EW.bind_ok] at h2
          rcases List.mem_append.mp h2 with h3 | h4
          · simp at h3
            subst h3
            rfl
          · split at h4 <;> simp [EW.fail, EW.pure] at h4

theorem walkUio_noDevReady (env : Env) (fs : FS) (h : SCSIHandler) (es : List DevEntry) :
    ∀ a ∈ (walkUio env fs h es).1, noDevReadyA a = true := by
  induction es with
  | nil => intro a ha; simp [walkUio, EW.pure] at ha
  | cons e rest ih =>
    intro a ha
    unfold walkUio at ha
    split at ha
    · exact ih a ha
    · split at ha
      · exact ih a ha
      · split at ha
        · simp [EW.fail] at ha
        · split at ha
          · exact ih a ha
          · split at ha
            · simp [EW.fail] at ha
            · split at ha
              · exact ih a ha
              · refine traceAll_bind (openDevice_noDevReady env fs _ _ _)
                  (fun _ => ?_) a ha
                intro b hb2
                simp [EW.pure] at hb2

theorem findDevice_noDevReady (env : Env) (fs : FS) (h : SCSIHandler) :
    ∀ a ∈ (findDevice env fs h).1, noDevReadyA a = true :=
  walkUio_noDevReady env fs h fs.devEntries

/-- nonStartA gives devReady-freedom. -/
theorem noDevReady_of_nonStart {a : Action} (hn : nonStartA a = true) :
    Action.isDevReady a = false := by
  cases a <;> simp_all [nonStartA, Action.isDevReady, Action.isAttach]

/-- nonStartA gives attach-freedom. -/
theorem noAttach_of_nonStart {a : Action} (hn : nonStartA a = true) :
    Action.isAttach a = false := by
  cases a <;> simp_all [nonStartA, Action.isDevReady, Action.isAttach]

/-! ### Last-character discrimination of attribute paths -/

theorem pjoin_lastCh (a b : String) (hb : b ≠ "") :
    (pjoin a b).toList.getLast? = b.toList.getLast? := by
  unfold pjoin
  by_cases haa : a = ""
  · simp [haa]
  · rw [if_neg haa, if_neg hb]
    have hform : (a ++ "/" ++ b).toList = (a.toList ++ ['/']) ++ b.toList := rfl
    rw [hform]
    exact List.getLast?_append_of_ne_nil _ (toList_ne_nil hb)

theorem controlPath_ne_blockDev (env : Env) (h : SCSIHandler) :
    controlPath env h ≠ blockDevAttr env h := by
  intro hEq
  have hc := pjoin_lastCh (pjoin (hbaDir env h) h.VolumeName) "control" (by decide)
  have hbk := pjoin_lastCh (actionAttrDir env h) "block_dev" (by decide)
  have := congrArg (fun s => s.toList.getLast?) hEq
  simp only [controlPath, blockDevAttr] at this
  rw [hc, hbk] at this
  simp at this

theorem controlPath_ne_resetRing (env : Env) (h : SCSIHandler) :
    controlPath env h ≠ resetRingAttr env h := by
  intro hEq
  have hc := pjoin_lastCh (pjoin (hbaDir env h) h.VolumeName) "control" (by decide)
  have hr := pjoin_lastCh (actionAttrDir env h) "reset_ring" (by decide)
  have := congrArg (fun s => s.toList.getLast?) hEq
  simp only [controlPath, resetRingAttr] at this
  rw [hc, hr] at this
  simp at this

theorem enablePath_ne_blockDev (env : Env) (h : SCSIHandler) :
    enablePath env h ≠ blockDevAttr env h := by
  intro hEq
  have hc := pjoin_lastCh (pjoin (hbaDir env h) h.VolumeName) "enable" (by decide)
  have hbk := pjoin_lastCh (actionAttrDir env h) "block_dev" (by decide)
  have := congrArg (fun s => s.toList.getLast?) hEq
  simp only [enablePath, blockDevAttr] at this
  rw [hc, hbk] at this
  simp at this

theorem enablePath_ne_resetRing (env : Env) (h : SCSIHandler) :
    enablePath env h ≠ resetRingAttr env h := by
  intro hEq
  have hc := pjoin_lastCh (pjoin (hbaDir env h) h.VolumeName) "enable" (by decide)
  have hr := pjoin_lastCh (actionAttrDir env h) "reset_ring" (by decide)
  have := congrArg (fun s => s.toList.getLast?) hEq
  simp only [enablePath, resetRingAttr] at this
  rw [hc, hr] at this
  simp at this

/-! ### Claim theorems -/

/-- C1: with a pre-existing node at devPath/volume, open takes the
recovery branch (cleanup then start); the guard holds iff both
attrib/block_dev and attrib/reset_ring exist (a child existing forces
its parent directory to exist, the well-formedness hypothesis); when
either attribute is missing, open fails with the recovery-unsupported
error and performs no action at all, in particular no sysfs write. -/
theorem C1_recovery_guard (env : Env) (fs : FS) (h : SCSIHandler) (devPath : String)
    (b : Bool)
    (hex : fs.lstat (devNode devPath h) = StatRes.found b)
    (hwf : (fs.stat (blockDevAttr env h)).isFound = true →
      fs.stat (actionAttrDir env h) = StatRes.found true) :
    openTCMUDevice env fs devPath h = recoverAndStart env fs h ∧
    recoverySupported env fs h =
      ((fs.stat (blockDevAttr env h)).isFound &&
        (fs.stat (resetRingAttr env h)).isFound) ∧
    (((fs.stat (blockDevAttr env h)).isFound &&
        (fs.stat (resetRingAttr env h)).isFound) = false →
      openTCMUDevice env fs devPath h = ([], Except.error Err.recoveryUnsupported)) := by
  have hopen : openTCMUDevice env fs devPath h = recoverAndStart env fs h := by
    unfold openTCMUDevice
    rw [hex]
  have hguard : recoverySupported env fs h =
      ((fs.stat (blockDevAttr env h)).isFound &&
        (fs.stat (resetRingAttr env h)).isFound) := by
    unfold recoverySupported
    cases ha : fs.stat (actionAttrDir env h) with
    | found d =>
      cases d with
      | true =>
        cases hb : fs.stat (blockDevAttr env h) with
        | found d2 =>
          cases hr : fs.stat (resetRingAttr env h) <;> simp [StatRes.isFound]
        | notExist => simp [StatRes.isFound]
        | errS m => simp [StatRes.isFound]
      | false =>
        cases hb : fs.stat (blockDevAttr env h) with
        | found d2 =>
          have hcontra := hwf (by simp [hb, StatRes.isFound])
          rw [ha] at hcontra
          exact absurd hcontra (by simp)
        | notExist => simp [StatRes.isFound]
        | errS m => simp [StatRes.isFound]
    | notExist =>
      cases hb : fs.stat (blockDevAttr env h) with
      | found d2 =>
        have hcontra := hwf (by simp [hb, StatRes.isFound])
        rw [ha] at hcontra
        exact absurd hcontra (by simp)
      | notExist => simp [StatRes.isFound]
      | errS m => simp [StatRes.isFound]
    | errS m =>
      cases hb : fs.stat (blockDevAttr env h) with
      | found d2 =>
        have hcontra := hwf (by simp [hb, StatRes.isFound])
        rw [ha] at hcontra
        exact absurd hcontra (by simp)
      | notExist => simp [StatRes.isFound]
      | errS m2 => simp [StatRes.isFound]
  refine ⟨hopen, hguard, fun hff => ?_⟩
  have hsup : recoverySupported env fs h = false := by rw [hguard, hff]
  rw [hopen]
  unfold recoverAndStart cleanup
  rw [hsup]
  simp [EW.bind, EW.fail]

/-- C2: when the recovery guard passes and the three attribute writes
succeed, cleanup performs exactly the write sequence block_dev then
reset_ring then block_dev with contents 1, 1, 0, and no write of the
control or enable attribute appears in its trace. -/
theorem C2_recovery_sequence (env : Env) (fs : FS) (h : SCSIHandler)
    (hsup : recoverySupported env fs h = true)
    (hw1 : fs.writeErr (blockDevAttr env h) "1\n" = none)
    (hw2 : fs.writeErr (resetRingAttr env h) "1\n" = none)
    (hw3 : fs.writeErr (blockDevAttr env h) "0\n" = none) :
    cleanup env fs h =
      ([Action.write (blockDevAttr env h) "1\n",
        Action.write (resetRingAttr env h) "1\n",
        Action.write (blockDevAttr env h) "0\n"], Except.ok ()) ∧
    (∀ c, Action.write (controlPath env h) c ∉ (cleanup env fs h).1 ∧
      Action.write (enablePath env h) c ∉ (cleanup env fs h).1) := by
  obtain ⟨hdir, _, _⟩ := recoverySupported_inv env fs h hsup
  have hb : writeLines fs (blockDevAttr env h) ["1"] =
      ([Action.write (blockDevAttr env h) "1\n"], Except.ok ()) := by
    rw [writeLines_dirExists fs _ _ (by rw [pdir_blockDevAttr]; exact hdir)
      (by intro l hl; simp at hl; subst hl; exact hw1)]
    rfl
  have hr : writeLines fs (resetRingAttr env h) ["1"] =
      ([Action.write (resetRingAttr env h) "1\n"], Except.ok ()) := by
    rw [writeLines_dirExists fs _ _ (by rw [pdir_resetRingAttr]; exact hdir)
      (by intro l hl; simp at hl; subst hl; exact hw2)]
    rfl
  have hu : writeLines fs (blockDevAttr env h) ["0"] =
      ([Action.write (blockDevAttr env h) "0\n"], Except.ok ()) := by
    rw [writeLines_dirExists fs _ _ (by rw [pdir_blockDevAttr]; exact hdir)
      (by intro l hl; simp at hl; subst hl; exact hw3)]
    rfl
  have hcl : cleanup env fs h =
      ([Action.write (blockDevAttr env h) "1\n",
        Action.write (resetRingAttr env h) "1\n",
        Action.write (blockDevAttr env h) "0\n"], Except.ok ()) := by
    unfold cleanup
    rw [hsup]
    unfold blockGo resetRingGo unblockGo
    rw [hb, hr, hu]
    simp [EW.mapErr, EW.bind]
  refine ⟨hcl, fun c => ?_⟩
  rw [hcl]
  constructor
  · intro hmem
    simp only [List.mem_cons, List.not_mem_nil, or_false] at hmem
    rcases hmem with h1 | h1 | h1 <;>
      first
      | exact controlPath_ne_blockDev env h (congrArg (fun a => match a with
          | Action.write p _ => p
          | _ => "") h1)
      | exact controlPath_ne_resetRing env h (congrArg (fun a => match a with
          | Action.write p _ => p
          | _ => "") h1)
  · intro hmem
    simp only [List.mem_cons, List.not_mem_nil, or_false] at hmem
    rcases hmem with h1 | h1 | h1 <;>
      first
      | exact enablePath_ne_blockDev env h (congrArg (fun a => match a with
          | Action.write p _ => p
          | _ => "") h1)
      | exact enablePath_ne_resetRing env h (congrArg (fun a => match a with
          | Action.write p _ => p
          | _ => "") h1)

/-- C3: when the parent directories exist and the writes succeed,
preEnableTcmu writes exactly the key=value lines dev_size, dev_config,
hw_block_size, hw_max_sectors = BlockXferMax * BlockSize / 1024 in int64
arithmetic, max_data_area_mb=2048 and async=1 to the control attribute,
then "1" to the enable attribute, in that order. -/
theorem C3_control_content (env : Env) (fs : FS) (h : SCSIHandler)
    (hd1 : fs.stat (pdir (controlPath env h)) = StatRes.found true)
    (hd2 : fs.stat (pdir (enablePath env h)) = StatRes.found true)
    (hw : ∀ l ∈ controlLines h, fs.writeErr (controlPath env h) (l ++ "\n") = none)
    (he : fs.writeErr (enablePath env h) "1\n" = none) :
    preEnableTcmu env fs h =
      ([Action.write (controlPath env h)
          ("dev_size=" ++ toString h.sizes.VolumeSize ++ "\n"),
        Action.write (controlPath env h)
          ("dev_config=go-tcmu//" ++ h.VolumeName ++ "\n"),
        Action.write (controlPath env h)
          ("hw_block_size=" ++ toString h.sizes.BlockSize ++ "\n"),
        Action.write (controlPath env h)
          ("hw_max_sectors=" ++
            toString (Int.tdiv (wrap64 (h.sizes.BlockXferMax * h.sizes.BlockSize)) 1024)
            ++ "\n"),
        Action.write (controlPath env h) "max_data_area_mb=2048\n",
        Action.write (controlPath env h) "async=1\n",
        Action.write (enablePath env h) "1\n"], Except.ok ()) := by
  unfold preEnableTcmu
  rw [writeLines_dirExists fs _ _ hd1 hw,
    writeLines_dirExists fs _ _ hd2 (by intro l hl; simp at hl; subst hl; exact he)]
  rfl

/-- C4 (amended): teardown attempts removals in the order LUN symlink,
LUN directory, tpgt_1 directory, WWN directory, core volume directory,
then the residual device node; a NotFound outcome is treated as success;
on the first non-NotFound failure close() returns that error immediately
and does not attempt the subsequent removals. -/
theorem C4_close_order (env : Env) (fs : FS) (h : SCSIHandler) (devPath : String)
    (us : Bool) :
    ((∀ p ∈ teardownPaths env h, (fs.removeRes p).isGood = true) →
      (fs.stat (devNode devPath h)).isFound = false →
      closeDevice env fs h devPath us =
        ((teardownPaths env h).map Action.remove ++
          (if us then [Action.closeUio] else []), Except.ok ())) ∧
    ((∀ p ∈ teardownPaths env h, (fs.removeRes p).isGood = true) →
      ∀ d, fs.stat (devNode devPath h) = StatRes.found d →
      (fs.removeRes (devNode devPath h)).isGood = true →
      closeDevice env fs h devPath us =
        ((teardownPaths env h).map Action.remove ++ [Action.remove (devNode devPath h)]
          ++ (if us then [Action.closeUio] else []), Except.ok ())) ∧
    (∀ l1 p l2, teardownPaths env h = l1 ++ p :: l2 →
      (∀ q ∈ l1, (fs.removeRes q).isGood = true) →
      (fs.removeRes p).isGood = false →
      closeDevice env fs h devPath us =
        ((l1 ++ [p]).map Action.remove,
          Except.error (removeErrOf p (fs.removeRes p)))) := by
  refine ⟨fun hall hnf => ?_, fun hall d hd hgood => ?_, fun l1 p l2 hdec hg hbad => ?_⟩
  · unfold closeDevice teardown
    rw [removeList_allGood fs _ hall]
    cases hs : fs.stat (devNode devPath h) with
    | found d => rw [hs] at hnf; simp [StatRes.isFound] at hnf
    | notExist => cases us <;> simp [EW.bind, EW.pure, EW.emit]
    | errS m => cases us <;> simp [EW.bind, EW.pure, EW.emit]
  · unfold closeDevice teardown
    rw [removeList_allGood fs _ hall, hd, removeGo_good fs _ hgood]
    cases us <;> simp [EW.bind, EW.pure, EW.emit]
  · unfold closeDevice teardown
    rw [hdec, removeList_firstBad fs l1 p l2 hg hbad]
    simp [EW.bind]

/-- C5: a removal whose worker does not report within the 30-second
select window makes close() return the teardown-timeout error for that
path, provided the removals before it succeeded. -/
theorem C5_removal_timeout (env : Env) (fs : FS) (h : SCSIHandler) (devPath : String)
    (us : Bool) (l1 : List String) (p : String) (l2 : List String)
    (hdec : teardownPaths env h = l1 ++ p :: l2)
    (hg : ∀ q ∈ l1, (fs.removeRes q).isGood = true)
    (ht : fs.removeRes p = RemoveOutcome.timeoutR) :
    closeDevice env fs h devPath us =
      ((l1 ++ [p]).map Action.remove, Except.error (Err.teardownTimeout p)) := by
  unfold closeDevice teardown
  rw [hdec, removeList_firstBad fs l1 p l2 hg (by rw [ht]; rfl)]
  rw [ht]
  simp [EW.bind, removeErrOf]

/-! ### Scan characterization -/


theorem walkUio_skips (env : Env) (fs : FS) (h : SCSIHandler) (e : DevEntry)
    (rest : List DevEntry) (hs : entrySkips env fs h e) :
    walkUio env fs h (e :: rest) = walkUio env fs h rest := by
  conv_lhs => unfold walkUio
  rcases hs with h1 | h1 | ⟨c, hc, h1 | ⟨s3, hs3, hne⟩⟩
  · simp [h1]
  · by_cases h2 : (e.isDir && !e.isRoot) = true <;> simp [h1, h2]
  · rw [List.headD_eq_head?] at h1
    by_cases h2 : (e.isDir && !e.isRoot) = true
    · simp [h2]
    · by_cases h3 : hasPref e.name "uio" = true
      · simp [h2, h3, hc, h1]
      · simp [h2, eq_false_of_ne_true h3]
  · rw [List.get?_eq_getElem?] at hs3
    by_cases h2 : (e.isDir && !e.isRoot) = true
    · simp [h2]
    · by_cases h3 : hasPref e.name "uio" = true
      · by_cases h4 : (uioFields c).head?.getD "" = "tcm-user"
        · simp [h2, h3, hc, h4, hs3, hne]
        · simp [h2, h3, hc, h4]
      · simp [h2, eq_false_of_ne_true h3]

theorem walkUio_skipAll (env : Env) (fs : FS) (h : SCSIHandler) (l rest : List DevEntry)
    (hs : ∀ e ∈ l, entrySkips env fs h e) :
    walkUio env fs h (l ++ rest) = walkUio env fs h rest := by
  induction l with
  | nil => rfl
  | cons e es ih =>
    rw [List.cons_append, walkUio_skips env fs h e _ (hs e (by simp))]
    exact ih (fun q hq => hs q (by simp [hq]))

theorem openDevice_ok (env : Env) (fs : FS) (user vol uio szs : String) (n : Nat)
    (ho : fs.openErr (env.devfs ++ "/" ++ uio) = none)
    (hsz : fs.readFile (uioMapSizePath env uio) = Except.ok szs)
    (hparse : parseGoUint (trimRightNl szs) = some n)
    (hm : fs.mmapErr (env.devfs ++ "/" ++ uio) = none) :
    openDevice env fs user vol uio =
      ([Action.openUio (env.devfs ++ "/" ++ uio) uioOpenFlags,
        Action.mmapSharedRW n], Except.ok (UioHandle.mk vol n)) := by
  unfold openDevice
  rw [ho, hsz]
  simp [hparse, hm, EW.emit, EW.bind_ok, EW.pure, UioHandle.mk]

/-- C7: the attach scan skips the entries before the first match (non-root
directories, names without the uio lead, name files with a different
transport family or dev_config), and at the first entry whose name file
splits into tcm-user / user / volume / matching dev_config it opens the
UIO character device with O_RDWR, O_NONBLOCK and O_CLOEXEC, reads
maps/map0/size, mmaps that whole length shared read/write, records the
volume field, and stops: the result does not depend on the entries after
the match. -/
theorem C7_uio_scan (env : Env) (fs : FS) (h : SCSIHandler)
    (l1 : List DevEntry) (e : DevEntry) (l2 : List DevEntry) (c szs : String) (n : Nat)
    (hdev : fs.devEntries = l1 ++ e :: l2)
    (hskips : ∀ q ∈ l1, entrySkips env fs h q)
    (hnotdir : (e.isDir && !e.isRoot) = false)
    (hpre : hasPref e.name "uio" = true)
    (hname : fs.readFile (uioNamePath env e.name) = Except.ok c)
    (hfam : (uioFields c).headD "" = "tcm-user")
    (hcfg : (uioFields c).get? 3 = some (GetDevConfig h))
    (ho : fs.openErr (env.devfs ++ "/" ++ e.name) = none)
    (hsz : fs.readFile (uioMapSizePath env e.name) = Except.ok szs)
    (hparse : parseGoUint (trimRightNl szs) = some n)
    (hm : fs.mmapErr (env.devfs ++ "/" ++ e.name) = none) :
    findDevice env fs h =
      ([Action.openUio (env.devfs ++ "/" ++ e.name) uioOpenFlags,
        Action.mmapSharedRW n],
        Except.ok (some (UioHandle.mk (((uioFields c).get? 2).getD "") n))) := by
  have hfam2 := hfam
  have hcfg2 := hcfg
  rw [List.headD_eq_head?] at hfam2
  rw [List.get?_eq_getElem?] at hcfg2
  have hstep : walkUio env fs h (e :: l2) =
      EW.bind (openDevice env fs (((uioFields c).get? 1).getD "")
        (((uioFields c).get? 2).getD "") e.name) (fun uh => EW.pure (some uh)) := by
    conv_lhs => unfold walkUio
    rw [hname]
    simp [hnotdir, hpre, hfam2, hcfg2, List.get?_eq_getElem?]
  unfold findDevice
  rw [hdev, walkUio_skipAll env fs h l1 (e :: l2) hskips, hstep,
    openDevice_ok env fs _ _ _ szs n ho hsz hparse hm]
  rfl

theorem EW.bind_ok_inv {α β : Type} {x : EW α} {f : α → EW β} {b : β}
    (hres : (EW.bind x f).2 = Except.ok b) :
    ∃ a, x.2 = Except.ok a ∧ (f a).2 = Except.ok b ∧
      (EW.bind x f).1 = x.1 ++ (f a).1 := by
  obtain ⟨t, r⟩ := x
  cases r with
  | error e => simp [EW.bind] at hres
  | ok a => exact ⟨a, rfl, by simpa [EW.bind] using hres, by simp [EW.bind]⟩

/-- C8: createDevEntry polls the SCSI address glob in a 30-attempt loop;
when no attempt returns matches without error it fails with the
address-timeout error, and when some attempt returns a unique match whose
file holds a major:minor pair, it creates the device node at
devPath/volume with that major and minor. -/
theorem C8_scsi_poll (env : Env) (fs : FS) (h : SCSIHandler) (devPath addr : String)
    (hstat : fs.stat (devNode devPath h) = StatRes.notExist)
    (haddr : fs.readFile (addrPath env h) = Except.ok addr) :
    ((∀ j, j < 30 → ¬ goodAttempt (fs.glob (devPattern env addr)) j) →
      createDevEntry env fs h devPath =
        ([Action.mkdirAll devPath],
          Except.error (Err.scsiAddressTimeout (devPattern env addr)))) ∧
    (∀ j m mm p1 p2 major minor, j < 30 →
      (∀ k, k < j → ¬ goodAttempt (fs.glob (devPattern env addr)) k) →
      fs.glob (devPattern env addr) j = GlobRes.mk [m] none →
      fs.readFile m = Except.ok mm →
      goSplit ':' (trimSpace mm) = [p1, p2] →
      goAtoi p1 = some major →
      goAtoi p2 = some minor →
      fs.mknodErr (devNode devPath h) = none →
      createDevEntry env fs h devPath =
        ([Action.mkdirAll devPath, Action.mknod (devNode devPath h) major minor],
          Except.ok ())) := by
  constructor
  · intro hbad
    unfold createDevEntry
    simp only [EW.emit, EW.bind_ok, hstat, haddr, pollGlob_none _ hbad]
    rfl
  · intro j m mm p1 p2 major minor hj hbefore hglob hmm hsplit ha1 ha2 hmk
    have hfound : pollGlob (fs.glob (devPattern env addr)) = some [m] := by
      have := pollGlob_found (fs.glob (devPattern env addr)) j hj hbefore
        (by simp [goodAttempt, hglob])
      rw [hglob] at this
      simpa using this
    unfold createDevEntry
    simp only [EW.emit, EW.bind_ok, hstat, haddr, hfound, hmm, hsplit, ha1, ha2]
    unfold mknodGo
    simp only [EW.emit, EW.bind_ok, hmk]
    rfl

/-- C10: when the first accepted glob attempt returns more than one
match, createDevEntry fails with the too-many-matches error instead of
picking one; no major:minor read and no mknod happens. -/
theorem C10_ambiguous_match (env : Env) (fs : FS) (h : SCSIHandler) (devPath addr : String)
    (ms : List String) (j : Nat)
    (hstat : fs.stat (devNode devPath h) = StatRes.notExist)
    (haddr : fs.readFile (addrPath env h) = Except.ok addr)
    (hj : j < 30)
    (hbefore : ∀ k, k < j → ¬ goodAttempt (fs.glob (devPattern env addr)) k)
    (hglob : fs.glob (devPattern env addr) j = GlobRes.mk ms none)
    (hlen : 1 < ms.length) :
    createDevEntry env fs h devPath =
      ([Action.mkdirAll devPath],
        Except.error (Err.tooManyMatches (devPattern env addr) ms.length)) := by
  obtain ⟨a, ms1, rfl⟩ : ∃ a t, ms = a :: t := by
    cases ms with
    | nil => simp at hlen
    | cons a t => exact ⟨a, t, rfl⟩
  obtain ⟨b, ms2, rfl⟩ : ∃ b t, ms1 = b :: t := by
    cases ms1 with
    | nil => simp at hlen
    | cons b t => exact ⟨b, t, rfl⟩
  have hfound : pollGlob (fs.glob (devPattern env addr)) = some (a :: b :: ms2) := by
    have := pollGlob_found (fs.glob (devPattern env addr)) j hj hbefore
      (by simp [goodAttempt, hglob])
    rw [hglob] at this
    simpa using this
  unfold createDevEntry
  simp only [EW.emit, EW.bind_ok, hstat, haddr, hfound]
  rfl

/-- C9: a successful open, through either the recovery branch or the
fresh-creation branch, emits exactly one DevReady action, carrying the
two channel capacities of 5, and every attach action (UIO open, mmap)
precedes it. -/
theorem C9_devready (env : Env) (fs : FS) (devPath : String) (h : SCSIHandler)
    (uh : Option UioHandle)
    (hok : (openTCMUDevice env fs devPath h).2 = Except.ok uh) :
    ∃ t1 t2, (openTCMUDevice env fs devPath h).1 = t1 ++ Action.devReady 5 5 :: t2 ∧
      (∀ a ∈ t1, Action.isDevReady a = false) ∧
      (∀ a ∈ t2, Action.isDevReady a = false) ∧
      (∀ a ∈ t2, Action.isAttach a = false) := by
  cases hls : fs.lstat (devNode devPath h) with
  | errS m =>
    have : openTCMUDevice env fs devPath h = EW.fail (Err.lstatFailed (devNode devPath h) m) := by
      unfold openTCMUDevice
      rw [hls]
    rw [this] at hok
    simp [EW.fail] at hok
  | found b =>
    have hopen : openTCMUDevice env fs devPath h = recoverAndStart env fs h := by
      unfold openTCMUDevice
      rw [hls]
    rw [hopen] at hok ⊢
    unfold recoverAndStart at hok ⊢
    obtain ⟨u1, hcok, hsok, htr⟩ := EW.bind_ok_inv hok
    unfold start at hsok
    obtain ⟨u2, hfok, hrok, htr2⟩ := EW.bind_ok_inv hsok
    rw [htr]
    unfold start
    rw [htr2]
    refine ⟨(cleanup env fs h).1 ++ (findDevice env fs h).1, [], by simp [EW.emit, EW.bind, EW.pure], ?_, by simp, by simp⟩
    intro a ha
    rcases List.mem_append.mp ha with h1 | h1
    · exact noDevReady_of_nonStart (cleanup_nonStart env fs h a h1)
    · have := findDevice_noDevReady env fs h a h1
      simpa [noDevReadyA] using this
  | notExist =>
    have hopen : openTCMUDevice env fs devPath h =
        EW.bind (closeDevice env fs h devPath false) (fun _ =>
          EW.bind (preEnableTcmu env fs h) (fun _ =>
            EW.bind (start env fs h) (fun uh2 =>
              EW.bind (postEnableTcmu env fs h devPath) (fun _ => EW.pure uh2)))) := by
      unfold openTCMUDevice
      rw [hls]
    rw [hopen] at hok ⊢
    obtain ⟨u1, hclok, hrest1, htr1⟩ := EW.bind_ok_inv hok
    obtain ⟨u2, hpok, hrest2, htr2⟩ := EW.bind_ok_inv hrest1
    obtain ⟨u3, hsok, hrest3, htr3⟩ := EW.bind_ok_inv hrest2
    obtain ⟨u4, hpostok, hrest4, htr4⟩ := EW.bind_ok_inv hrest3
    unfold start at hsok
    obtain ⟨u5, hfok, hrok, htr5⟩ := EW.bind_ok_inv hsok
    refine ⟨(closeDevice env fs h devPath false).1 ++ (preEnableTcmu env fs h).1 ++
        (findDevice env fs h).1,
      (postEnableTcmu env fs h devPath).1, ?_, ?_, ?_, ?_⟩
    · rw [htr1, htr2, htr3]
      unfold start
      rw [htr5, htr4]
      simp [EW.emit, EW.bind, EW.pure]
    · intro a ha
      rcases List.mem_append.mp ha with h1 | h1
      · rcases List.mem_append.mp h1 with h2 | h2
        · exact noDevReady_of_nonStart (closeDevice_nonStart env fs h devPath false a h2)
        · exact noDevReady_of_nonStart (preEnableTcmu_nonStart env fs h a h2)
      · have := findDevice_noDevReady env fs h a h1
        simpa [noDevReadyA] using this
    · intro a ha
      exact noDevReady_of_nonStart (postEnableTcmu_nonStart env fs h devPath a ha)
    · intro a ha
      exact noAttach_of_nonStart (postEnableTcmu_nonStart env fs h devPath a ha)

/-! ### Closed instantiations -/

/-- C1 witness: on the leftover-state filesystem both recovery
attributes exist and the guard equivalence holds. -/
theorem C1_recovery_guard_witness :
    (fsRec.stat (blockDevAttr envW hW)).isFound = true ∧
    (fsRec.stat (resetRingAttr envW hW)).isFound = true ∧
    (openTCMUDevice envW fsRec "/dev/x" hW = recoverAndStart envW fsRec hW ∧
      recoverySupported envW fsRec hW =
        ((fsRec.stat (blockDevAttr envW hW)).isFound &&
          (fsRec.stat (resetRingAttr envW hW)).isFound) ∧
      (((fsRec.stat (blockDevAttr envW hW)).isFound &&
          (fsRec.stat (resetRingAttr envW hW)).isFound) = false →
        openTCMUDevice envW fsRec "/dev/x" hW =
          ([], Except.error Err.recoveryUnsupported))) :=
  ⟨by decide, by decide,
    C1_recovery_guard envW fsRec hW "/dev/x" false (by decide) (by decide)⟩

/-- C2 witness: the recovery write sequence on the leftover-state
filesystem, with the attribute paths spelled out. -/
theorem C2_recovery_sequence_witness :
    recoverySupported envW fsRec hW = true ∧
    cleanup envW fsRec hW =
      ([Action.write (attribDirW ++ "/block_dev") "1\n",
        Action.write (attribDirW ++ "/reset_ring") "1\n",
        Action.write (attribDirW ++ "/block_dev") "0\n"], Except.ok ()) :=
  ⟨by decide,
    ((C2_recovery_sequence envW fsRec hW (by decide) (by decide) (by decide)
      (by decide)).1).trans (by decide)⟩

/-- C3 witness: for sizes 1 GiB / 512 / 256 the control file receives
dev_size=1073741824, hw_block_size=512, hw_max_sectors=128. -/
theorem C3_control_content_witness :
    fsCreate.stat (pdir (controlPath envW hW)) = StatRes.found true ∧
    preEnableTcmu envW fsCreate hW =
      ([Action.write "/sys/kernel/config/target/core/user_42/vol0/control"
          "dev_size=1073741824\n",
        Action.write "/sys/kernel/config/target/core/user_42/vol0/control"
          "dev_config=go-tcmu//vol0\n",
        Action.write "/sys/kernel/config/target/core/user_42/vol0/control"
          "hw_block_size=512\n",
        Action.write "/sys/kernel/config/target/core/user_42/vol0/control"
          "hw_max_sectors=128\n",
        Action.write "/sys/kernel/config/target/core/user_42/vol0/control"
          "max_data_area_mb=2048\n",
        Action.write "/sys/kernel/config/target/core/user_42/vol0/control"
          "async=1\n",
        Action.write "/sys/kernel/config/target/core/user_42/vol0/enable" "1\n"],
        Except.ok ()) :=
  ⟨by decide,
    (C3_control_content envW fsCreate hW (by decide) (by decide) (by decide)
      (by decide)).trans (by decide)⟩

/-- C4 counterexample: when removing the LUN symlink fails with EBUSY,
close() stops: it returns that error and never attempts the LUN
directory (or any later path), contradicting the claim that it
continues attempting the subsequent removals. -/
theorem C4_counterexample :
    closeDevice envW fsFailFirst hW "/dev/x" false =
      ([Action.remove lunVolW], Except.error (Err.removeFailed lunVolW "EBUSY")) ∧
    Action.remove lunDirW ∉ (closeDevice envW fsFailFirst hW "/dev/x" false).1 ∧
    Action.remove tpgtW ∉ (closeDevice envW fsFailFirst hW "/dev/x" false).1 := by
  decide

/-- C4 witness: with every removal succeeding, close() removes exactly
the five paths, in the documented order. -/
theorem C4_close_order_witness :
    (∀ p ∈ teardownPaths envW hW, (fsRec.removeRes p).isGood = true) ∧
    closeDevice envW fsRec hW "/dev/x" false =
      ([Action.remove lunVolW, Action.remove lunDirW, Action.remove tpgtW,
        Action.remove "/sys/kernel/config/target/loopback/naa.6001405a",
        Action.remove "/sys/kernel/config/target/core/user_42/vol0"],
        Except.ok ()) :=
  ⟨by decide,
    ((C4_close_order envW fsRec hW "/dev/x" false).1 (by decide) (by decide)).trans
      (by decide)⟩

/-- C5 witness: the LUN-directory removal timing out makes close()
return the teardown-timeout error naming that path. -/
theorem C5_removal_timeout_witness :
    fsTimeout2.removeRes lunDirW = RemoveOutcome.timeoutR ∧
    closeDevice envW fsTimeout2 hW "/dev/x" false =
      ([Action.remove lunVolW, Action.remove lunDirW],
        Except.error (Err.teardownTimeout lunDirW)) :=
  ⟨by decide,
    (C5_removal_timeout envW fsTimeout2 hW "/dev/x" false [lunVolW] lunDirW
      [tpgtW, "/sys/kernel/config/target/loopback/naa.6001405a",
        "/sys/kernel/config/target/core/user_42/vol0"]
      (by decide) (by decide) (by decide)).trans (by decide)⟩

/-- C6: with leftover state, recovery attributes present, and no uio
entry matching the device, open returns success with no attached UIO
handle instead of failing: the walk ends with a nil error, so the scan
finding nothing is indistinguishable from success. -/
theorem C6_open_succeeds_without_uio :
    openTCMUDevice envW fsRec "/dev/x" hW =
      ([Action.write (attribDirW ++ "/block_dev") "1\n",
        Action.write (attribDirW ++ "/reset_ring") "1\n",
        Action.write (attribDirW ++ "/block_dev") "0\n",
        Action.devReady 5 5], Except.ok none) := by
  decide

/-- C7 witness: the scan skips the devfs root, a directory, a non-uio
file and a non-tcm uio entry, then opens uio3 and mmaps the 0x400000
bytes read from its map size file. -/
theorem C7_uio_scan_witness :
    fsCreate.readFile (uioNamePath envW "uio3") =
      Except.ok "tcm-user/42/vol0/go-tcmu//vol0\n" ∧
    findDevice envW fsCreate hW =
      ([Action.openUio "/dev/uio3" uioOpenFlags, Action.mmapSharedRW 4194304],
        Except.ok (some (UioHandle.mk "vol0" 4194304))) :=
  ⟨by decide,
    (C7_uio_scan envW fsCreate hW
      [DevEntry.mk "dev" true true, DevEntry.mk "block" true false,
        DevEntry.mk "null" false false, DevEntry.mk "uio0" false false]
      (DevEntry.mk "uio3" false false) [DevEntry.mk "uio9" false false]
      "tcm-user/42/vol0/go-tcmu//vol0\n" "0x400000\n" 4194304
      (by decide)
      (by
        intro q hq
        simp only [List.mem_cons, List.not_mem_nil, or_false] at hq
        rcases hq with rfl | rfl | rfl | rfl
        · exact Or.inr (Or.inl (by decide))
        · exact Or.inl (by decide)
        · exact Or.inr (Or.inl (by decide))
        · exact Or.inr (Or.inr ⟨"ppp/a/b/c", by decide, Or.inl (by decide)⟩))
      (by decide) (by decide) (by decide) (by decide) (by decide) (by decide)
      (by decide) (by decide) (by decide)).trans (by decide)⟩

/-- C8 witness: the glob resolves on the third attempt to one match
holding 8:32, and the node is created with major 8 minor 32. -/
theorem C8_scsi_poll_witness :
    fsCreate.readFile (addrPath envW hW) = Except.ok " 2:0:0:0\n" ∧
    createDevEntry envW fsCreate hW "/dev/x" =
      ([Action.mkdirAll "/dev/x", Action.mknod "/dev/x/vol0" 8 32], Except.ok ()) :=
  ⟨by decide,
    ((C8_scsi_poll envW fsCreate hW "/dev/x" " 2:0:0:0\n" (by decide) (by decide)).2
      2 matchW "8:32\n" "8" "32" 8 32 (by omega) (by decide) (by decide) (by decide)
      (by decide) (by decide) (by decide) (by decide)).trans (by decide)⟩

/-- C9 witness: the fresh-creation open on the concrete filesystem
succeeds and its trace has the one devReady action after the attach. -/
theorem C9_devready_witness :
    (openTCMUDevice envW fsCreate "/dev/x" hW).2 =
      Except.ok (some (UioHandle.mk "vol0" 4194304)) ∧
    (∃ t1 t2, (openTCMUDevice envW fsCreate "/dev/x" hW).1 =
        t1 ++ Action.devReady 5 5 :: t2 ∧
      (∀ a ∈ t1, Action.isDevReady a = false) ∧
      (∀ a ∈ t2, Action.isDevReady a = false) ∧
      (∀ a ∈ t2, Action.isAttach a = false)) :=
  ⟨by decide,
    C9_devready envW fsCreate "/dev/x" hW (some (UioHandle.mk "vol0" 4194304))
      (by decide)⟩

/-- C10 witness: two matches for the address glob make createDevEntry
fail with the too-many-matches error and perform no mknod. -/
theorem C10_ambiguous_match_witness :
    fsMulti.glob (devPattern envW " 2:0:0:0\n") 0 =
      GlobRes.mk [matchW, matchW ++ "b"] none ∧
    createDevEntry envW fsMulti hW "/dev/x" =
      ([Action.mkdirAll "/dev/x"],
        Except.error (Err.tooManyMatches (devPattern envW " 2:0:0:0\n") 2)) :=
  ⟨by decide,
    (C10_ambiguous_match envW fsMulti hW "/dev/x" " 2:0:0:0\n"
      [matchW, matchW ++ "b"] 0 (by decide) (by decide) (by omega)
      (fun k hk => absurd hk (by omega)) (by decide) (by decide)).trans (by decide)⟩

end GoTcmu